import Mathlib

/-!
Verification of the ProxmoxMCP repository against its specification.

The development shallowly embeds the Python sources:

* `src/simple-proxmox-mcp/server.py` (request dispatcher) and
  `src/simple-proxmox-mcp/proxmox_api.py` (per-action client script);
* `src/ProxmoxMCP/src/proxmox_mcp/tools/{container,template,task,backup}.py`
  (cluster fan-out handlers, template precondition checks, task pagination);
* `src/ProxmoxMCP/src/proxmox_mcp/formatting/templates.py` (renderers).

Loosely typed Python payloads are modelled by the `JVal` JSON value type;
the remote Proxmox API is an oracle parameter (a function from the request
to the response, with `Except` for calls that raise).  Remote calls issued
by a handler are returned alongside its response so that statements about
side effects ("no remote call is made") are expressible.

The modules `tools/base.py`, `formatting/formatters.py`, and
`formatting/theme.py` are referenced by the sources but are not part of the
repository snapshot; where a definition needs them, the missing piece is
either taken as an abstract parameter (theme icons, the byte formatter) or
modelled from the specification and marked as such in its doc comment.
-/

/-- Values of the loosely typed JSON-ish payloads exchanged with the remote
API, mirroring the Python values the handlers manipulate. -/
inductive JVal where
  | null
  | bool (b : Bool)
  | int (n : Int)
  | str (s : String)
  | arr (xs : List JVal)
  | obj (kvs : List (String × JVal))

/-- A JSON object: an association list of string keys to values, as produced
by `json.loads` and by the Proxmox client library. -/
abbrev JObj := List (String × JVal)

/-- Python truthiness (`bool(v)`) for JSON values: `None`, `False`, `0`, the
empty string, the empty list and the empty dict are falsy. -/
def truthy : JVal → Bool
  | .null => false
  | .bool b => b
  | .int n => n != 0
  | .str s => s != ""
  | .arr xs => !xs.isEmpty
  | .obj kvs => !kvs.isEmpty

/-- Rendering of a value inside a Python f-string (`str(v)`). -/
def jrepr : JVal → String
  | .null => "None"
  | .bool b => if b then "True" else "False"
  | .int n => toString n
  | .str s => s
  | .arr _ => "[...]"
  | .obj _ => "{...}"

/-- Rendering of `dict.get(k)` results inside an f-string: absent keys print
as `None`. -/
def jreprOpt : Option JVal → String
  | none => "None"
  | some v => jrepr v

/-- Python `d.get(k, default)`. -/
def jgetD (o : JObj) (k : String) (d : JVal) : JVal := (o.lookup k).getD d

/-- Python `d[k] = v` on an association-list object: replaces the binding of
`k` (dropping older bindings) and otherwise appends it. -/
def setKey (o : JObj) (k : String) (v : JVal) : JObj :=
  (o.filter (fun kv => kv.1 != k)) ++ [(k, v)]

/-- Character-list version of Python `str.startswith`. -/
def charsPre : List Char → List Char → Bool
  | [], _ => true
  | _ :: _, [] => false
  | c :: cs, d :: ds => c == d && charsPre cs ds

/-- Python `s.startswith(p)`, implemented over the character list so that it
reduces in the kernel. -/
def strStarts (s p : String) : Bool := charsPre p.data s.data

/-- Python `sep.join(parts)`. -/
def pyJoin (sep : String) : List String → String
  | [] => ""
  | [x] => x
  | x :: y :: rest => x ++ sep ++ pyJoin sep (y :: rest)

/-! ## The simple server dispatcher

Embedding of `handle_mcp_request` from `src/simple-proxmox-mcp/server.py`
(lines 80-210).  Each registered tool validates its required arguments with
Python truthiness (`if not node or not vmid: return {"error": ...}`) and then
issues exactly one call to `run_proxmox_api`, the boundary to the Remote API
Client.  The embedding returns the response object together with the list of
`run_proxmox_api` invocations made, so that "no remote call was issued" is
the statement that the list is empty. -/

/-- One invocation of `run_proxmox_api`: the `action` plus the keyword
arguments exactly as the handler passes them (`none` for a keyword whose
value is Python `None`). -/
structure ApiCall where
  action : String
  kwargs : List (String × Option JVal)

/-- The Remote API Client boundary of the simple server: for an action and
its keyword arguments, the response object `run_proxmox_api` would return. -/
abbrev SimpleApi := String → List (String × Option JVal) → JObj

/-- Validation used throughout `handle_mcp_request`: the argument is present
and truthy (`arguments.get(k)` followed by `if not v`). -/
def argOk (args : JObj) (k : String) : Bool :=
  match args.lookup k with
  | some v => truthy v
  | none => false

/-- The error dictionaries the simple server builds: `{"error": msg}`.  Note
that no `success` key is attached. -/
def errObj (msg : String) : JObj := [("error", JVal.str msg)]

/-- Helper for the branches of `handle_mcp_request` that reach the remote:
the oracle response paired with the single recorded call. -/
def apiCall (api : SimpleApi) (action : String)
    (kwargs : List (String × Option JVal)) : JObj × List ApiCall :=
  (api action kwargs, [⟨action, kwargs⟩])

/-- Embedding of `handle_mcp_request` (`src/simple-proxmox-mcp/server.py`,
lines 80-210): the `elif` chain over the tool name, argument validation, and
the forwarded keyword arguments of each branch. -/
def handle_mcp_request (api : SimpleApi) (tool : String) (args : JObj) :
    JObj × List ApiCall :=
  if tool = "get_nodes" then
    apiCall api "get_nodes" []
  else if tool = "get_node_status" then
    if argOk args "node" then
      apiCall api "get_node_status" [("node", args.lookup "node")]
    else (errObj "Node name is required for get_node_status", [])
  else if tool = "get_vms" then
    apiCall api "get_vms" []
  else if tool = "execute_vm_command" then
    if argOk args "node" && argOk args "vmid" && argOk args "command" then
      apiCall api "execute_vm_command"
        [("node", args.lookup "node"), ("vmid", args.lookup "vmid"),
         ("command", args.lookup "command")]
    else (errObj "Node name, VM ID, and command are required for execute_vm_command", [])
  else if tool = "get_storage" then
    apiCall api "get_storage" []
  else if tool = "get_cluster_status" then
    apiCall api "get_cluster_status" []
  else if tool = "get_templates" then
    apiCall api "get_templates" []
  else if tool = "clone_template" then
    if argOk args "node" && argOk args "template_vmid" && argOk args "new_vm_name" then
      apiCall api "clone_template"
        [("node", args.lookup "node"), ("vmid", args.lookup "template_vmid"),
         ("new_vm_name", args.lookup "new_vm_name"),
         ("target_node", args.lookup "target_node"),
         ("full_clone", some (jgetD args "full_clone" (.bool true))),
         ("storage", args.lookup "storage")]
    else (errObj "Node name, template VM ID, and new VM name are required for clone_template", [])
  else if tool = "start_vm" then
    if argOk args "node" && argOk args "vmid" then
      apiCall api "start_vm" [("node", args.lookup "node"), ("vmid", args.lookup "vmid")]
    else (errObj "Node name and VM ID are required for start_vm", [])
  else if tool = "stop_vm" then
    if argOk args "node" && argOk args "vmid" then
      apiCall api "stop_vm" [("node", args.lookup "node"), ("vmid", args.lookup "vmid")]
    else (errObj "Node name and VM ID are required for stop_vm", [])
  else if tool = "reboot_vm" then
    if argOk args "node" && argOk args "vmid" then
      apiCall api "reboot_vm" [("node", args.lookup "node"), ("vmid", args.lookup "vmid")]
    else (errObj "Node name and VM ID are required for reboot_vm", [])
  else if tool = "update_vm_config" then
    if argOk args "node" && argOk args "vmid" then
      apiCall api "update_vm_config"
        [("node", args.lookup "node"), ("vmid", args.lookup "vmid"),
         ("cpu", args.lookup "cpu"), ("memory", args.lookup "memory"),
         ("name", args.lookup "name"), ("description", args.lookup "description")]
    else (errObj "Node name and VM ID are required for update_vm_config", [])
  else if tool = "get_vm_config" then
    if argOk args "node" && argOk args "vmid" then
      apiCall api "get_vm_config" [("node", args.lookup "node"), ("vmid", args.lookup "vmid")]
    else (errObj "Node name and VM ID are required for get_vm_config", [])
  else if tool = "get_task_status" then
    if argOk args "node" && argOk args "task_id" then
      apiCall api "get_task_status"
        [("node", args.lookup "node"), ("task_id", args.lookup "task_id")]
    else (errObj "Node name and task ID are required for get_task_status", [])
  else if tool = "wait_for_task" then
    if argOk args "node" && argOk args "task_id" then
      apiCall api "wait_for_task"
        [("node", args.lookup "node"), ("task_id", args.lookup "task_id"),
         ("timeout", some (jgetD args "timeout" (.int 300)))]
    else (errObj "Node name and task ID are required for wait_for_task", [])
  else (errObj ("Unknown tool: " ++ tool), [])

/-- The static operation registry of the simple server: the tool names its
`elif` chain recognises (also listed by `mcp_server_info`). -/
def registeredTools : List String :=
  ["get_nodes", "get_node_status", "get_vms", "execute_vm_command",
   "get_storage", "get_cluster_status", "get_templates", "clone_template",
   "start_vm", "stop_vm", "reboot_vm", "update_vm_config", "get_vm_config",
   "get_task_status", "wait_for_task"]

/-- Required arguments of each registered tool, as enforced by the
validation checks of `handle_mcp_request` (and declared by
`mcp_server_info`). -/
def requiredArgs : String → List String
  | "get_node_status" => ["node"]
  | "execute_vm_command" => ["node", "vmid", "command"]
  | "clone_template" => ["node", "template_vmid", "new_vm_name"]
  | "start_vm" => ["node", "vmid"]
  | "stop_vm" => ["node", "vmid"]
  | "reboot_vm" => ["node", "vmid"]
  | "update_vm_config" => ["node", "vmid"]
  | "get_vm_config" => ["node", "vmid"]
  | "get_task_status" => ["node", "task_id"]
  | "wait_for_task" => ["node", "task_id"]
  | _ => []

/-- The fixed missing-argument message each branch of `handle_mcp_request`
returns. -/
def requiredMsg : String → String
  | "get_node_status" => "Node name is required for get_node_status"
  | "execute_vm_command" => "Node name, VM ID, and command are required for execute_vm_command"
  | "clone_template" => "Node name, template VM ID, and new VM name are required for clone_template"
  | "start_vm" => "Node name and VM ID are required for start_vm"
  | "stop_vm" => "Node name and VM ID are required for stop_vm"
  | "reboot_vm" => "Node name and VM ID are required for reboot_vm"
  | "update_vm_config" => "Node name and VM ID are required for update_vm_config"
  | "get_vm_config" => "Node name and VM ID are required for get_vm_config"
  | "get_task_status" => "Node name and task ID are required for get_task_status"
  | "wait_for_task" => "Node name and task ID are required for wait_for_task"
  | _ => ""

/-- How each required argument is named inside the corresponding error
message. -/
def humanName : String → String
  | "node" => "Node name"
  | "vmid" => "VM ID"
  | "command" => "command"
  | "template_vmid" => "template VM ID"
  | "new_vm_name" => "new VM name"
  | "task_id" => "task ID"
  | _ => ""

/-- A trivial concrete Remote API Client oracle, used for closed evaluation;
it never matters on the error paths under study. -/
def apiNone : SimpleApi := fun _ _ => []

/-! ## Claim C1: unknown operation names -/

/-- C1 counterexample.  The claim asserts the failure envelope carries
`success=false`.  Dispatching the unregistered name `unknown_op` with an
empty argument mapping does return the `Unknown tool` error with no remote
call, but the returned object has no `success` key at all, so it does not
contain `success=false`. -/
theorem unknown_tool_no_success_key :
    ("unknown_op" ∉ registeredTools) ∧
    handle_mcp_request apiNone "unknown_op" [] =
      (errObj "Unknown tool: unknown_op", []) ∧
    (handle_mcp_request apiNone "unknown_op" []).1.lookup "success" = none := by
  refine ⟨by decide, rfl, rfl⟩

/-- C1 (amended).  For every operation name not present in the operation
registry, dispatching a request with that name and any argument mapping
returns the error-only envelope `{error: "Unknown tool: <name>"}` (which
carries no `success` key) and no Remote API Client call is issued. -/
theorem unknown_tool_dispatch (api : SimpleApi) (tool : String) (args : JObj)
    (h : tool ∉ registeredTools) :
    handle_mcp_request api tool args = (errObj ("Unknown tool: " ++ tool), []) ∧
    (handle_mcp_request api tool args).1.lookup "success" = none := by
  simp only [registeredTools, List.mem_cons, List.not_mem_nil, or_false,
    not_or] at h
  obtain ⟨h1, h2, h3, h4, h5, h6, h7, h8, h9, h10, h11, h12, h13, h14, h15⟩ := h
  constructor
  · simp [handle_mcp_request, h1, h2, h3, h4, h5, h6, h7, h8, h9, h10, h11,
      h12, h13, h14, h15]
  · simp [handle_mcp_request, h1, h2, h3, h4, h5, h6, h7, h8, h9, h10, h11,
      h12, h13, h14, h15, errObj, List.lookup]

/-- C1 witness: the amended theorem evaluated at the unregistered name
`unknown_op` with an empty argument mapping. -/
theorem unknown_tool_dispatch_witness :
    handle_mcp_request apiNone "unknown_op" [] =
      (errObj "Unknown tool: unknown_op", []) ∧
    (handle_mcp_request apiNone "unknown_op" []).1.lookup "success" = none :=
  unknown_tool_dispatch apiNone "unknown_op" [] (by decide)

/-! ## Claim C2: missing required arguments -/

/-- C2 counterexample.  The claim asserts the failure envelope carries
`success=false`.  Dispatching `start_vm` with only `node` supplied does fail
before any remote call and names the required fields, but the returned
object has no `success` key at all. -/
theorem start_vm_missing_vmid_no_success_key :
    ("start_vm" ∈ registeredTools) ∧
    argOk [("node", JVal.str "pve1")] "vmid" = false ∧
    handle_mcp_request apiNone "start_vm" [("node", JVal.str "pve1")] =
      (errObj "Node name and VM ID are required for start_vm", []) ∧
    (handle_mcp_request apiNone "start_vm" [("node", JVal.str "pve1")]).1.lookup "success"
      = none := by
  refine ⟨by decide, rfl, rfl, rfl⟩

/-- C2 (amended).  For every registered operation and every argument mapping
in which some required argument is absent, null, or empty (more generally:
not truthy), dispatch returns the error-only envelope with the fixed message
naming the operation's required fields (no `success` key is attached), and
zero Remote API Client calls are made. -/
theorem missing_required_arg_dispatch (api : SimpleApi) (tool : String)
    (args : JObj) (hreg : tool ∈ registeredTools)
    (hmiss : ∃ k ∈ requiredArgs tool, argOk args k = false) :
    handle_mcp_request api tool args = (errObj (requiredMsg tool), []) ∧
    (handle_mcp_request api tool args).1.lookup "success" = none ∧
    ∀ k ∈ requiredArgs tool, (humanName k).data <:+: (requiredMsg tool).data := by
  simp only [registeredTools] at hreg
  fin_cases hreg
  · obtain ⟨k, hk, hbad⟩ := hmiss; simp [requiredArgs] at hk
  · obtain ⟨k, hk, hbad⟩ := hmiss
    simp only [requiredArgs, List.mem_cons, List.not_mem_nil, or_false] at hk
    subst hk
    refine ⟨?_, ?_, by decide⟩ <;>
      simp [handle_mcp_request, hbad, errObj, requiredMsg, List.lookup]
  · obtain ⟨k, hk, hbad⟩ := hmiss; simp [requiredArgs] at hk
  · obtain ⟨k, hk, hbad⟩ := hmiss
    have hc : (argOk args "node" && argOk args "vmid" && argOk args "command") = false := by
      simp only [requiredArgs, List.mem_cons, List.not_mem_nil, or_false] at hk
      rcases hk with rfl | rfl | rfl <;> simp [hbad]
    refine ⟨?_, ?_, by decide⟩ <;>
      simp [handle_mcp_request, hc, errObj, requiredMsg, List.lookup]
  · obtain ⟨k, hk, hbad⟩ := hmiss; simp [requiredArgs] at hk
  · obtain ⟨k, hk, hbad⟩ := hmiss; simp [requiredArgs] at hk
  · obtain ⟨k, hk, hbad⟩ := hmiss; simp [requiredArgs] at hk
  · obtain ⟨k, hk, hbad⟩ := hmiss
    have hc : (argOk args "node" && argOk args "template_vmid" && argOk args "new_vm_name") = false := by
      simp only [requiredArgs, List.mem_cons, List.not_mem_nil, or_false] at hk
      rcases hk with rfl | rfl | rfl <;> simp [hbad]
    refine ⟨?_, ?_, by decide⟩ <;>
      simp [handle_mcp_request, hc, errObj, requiredMsg, List.lookup]
  · obtain ⟨k, hk, hbad⟩ := hmiss
    have hc : (argOk args "node" && argOk args "vmid") = false := by
      simp only [requiredArgs, List.mem_cons, List.not_mem_nil, or_false] at hk
      rcases hk with rfl | rfl <;> simp [hbad]
    refine ⟨?_, ?_, by decide⟩ <;>
      simp [handle_mcp_request, hc, errObj, requiredMsg, List.lookup]
  · obtain ⟨k, hk, hbad⟩ := hmiss
    have hc : (argOk args "node" && argOk args "vmid") = false := by
      simp only [requiredArgs, List.mem_cons, List.not_mem_nil, or_false] at hk
      rcases hk with rfl | rfl <;> simp [hbad]
    refine ⟨?_, ?_, by decide⟩ <;>
      simp [handle_mcp_request, hc, errObj, requiredMsg, List.lookup]
  · obtain ⟨k, hk, hbad⟩ := hmiss
    have hc : (argOk args "node" && argOk args "vmid") = false := by
      simp only [requiredArgs, List.mem_cons, List.not_mem_nil, or_false] at hk
      rcases hk with rfl | rfl <;> simp [hbad]
    refine ⟨?_, ?_, by decide⟩ <;>
      simp [handle_mcp_request, hc, errObj, requiredMsg, List.lookup]
  · obtain ⟨k, hk, hbad⟩ := hmiss
    have hc : (argOk args "node" && argOk args "vmid") = false := by
      simp only [requiredArgs, List.mem_cons, List.not_mem_nil, or_false] at hk
      rcases hk with rfl | rfl <;> simp [hbad]
    refine ⟨?_, ?_, by decide⟩ <;>
      simp [handle_mcp_request, hc, errObj, requiredMsg, List.lookup]
  · obtain ⟨k, hk, hbad⟩ := hmiss
    have hc : (argOk args "node" && argOk args "vmid") = false := by
      simp only [requiredArgs, List.mem_cons, List.not_mem_nil, or_false] at hk
      rcases hk with rfl | rfl <;> simp [hbad]
    refine ⟨?_, ?_, by decide⟩ <;>
      simp [handle_mcp_request, hc, errObj, requiredMsg, List.lookup]
  · obtain ⟨k, hk, hbad⟩ := hmiss
    have hc : (argOk args "node" && argOk args "task_id") = false := by
      simp only [requiredArgs, List.mem_cons, List.not_mem_nil, or_false] at hk
      rcases hk with rfl | rfl <;> simp [hbad]
    refine ⟨?_, ?_, by decide⟩ <;>
      simp [handle_mcp_request, hc, errObj, requiredMsg, List.lookup]
  · obtain ⟨k, hk, hbad⟩ := hmiss
    have hc : (argOk args "node" && argOk args "task_id") = false := by
      simp only [requiredArgs, List.mem_cons, List.not_mem_nil, or_false] at hk
      rcases hk with rfl | rfl <;> simp [hbad]
    refine ⟨?_, ?_, by decide⟩ <;>
      simp [handle_mcp_request, hc, errObj, requiredMsg, List.lookup]

/-- C2 witness: the amended theorem evaluated at `start_vm` with an argument
mapping that supplies `node` but not `vmid`. -/
theorem missing_required_arg_dispatch_witness :
    handle_mcp_request apiNone "start_vm" [("node", JVal.str "pve1")] =
      (errObj (requiredMsg "start_vm"), []) ∧
    (handle_mcp_request apiNone "start_vm" [("node", JVal.str "pve1")]).1.lookup "success"
      = none ∧
    ∀ k ∈ requiredArgs "start_vm",
      (humanName k).data <:+: (requiredMsg "start_vm").data :=
  missing_required_arg_dispatch apiNone "start_vm" [("node", JVal.str "pve1")]
    (by decide) ⟨"vmid", by decide, rfl⟩

/-! ## Cluster fan-out aggregation (claim C3)

The four cluster-scoped list operations share one loop shape: iterate the
cluster node list in order, fetch that node's contribution from the remote,
append it to the accumulator, and on a per-node exception log a warning and
skip the node.  `gatherFan` is that loop; each operation supplies the
per-node remote call `f` and the per-node reshaping `g`. -/

/-- Whether a remote call returned normally (`true`) or raised. -/
def exOk {ε α : Type} : Except ε α → Bool
  | .ok _ => true
  | .error _ => false

/-- The common fan-out accumulation loop (`for node in nodes: try: ...
extend ... except: log and skip`). -/
def gatherFan {α β : Type} (f : String → Except String (List α))
    (g : String → List α → List β) : List String → List β → List β
  | [], acc => acc
  | n :: ns, acc =>
    match f n with
    | .ok items => gatherFan f g ns (acc ++ g n items)
    | .error _ => gatherFan f g ns acc

/-- Specification-side description of the aggregation: the concatenation, in
cluster-list order, of the contributions of exactly the nodes whose remote
call succeeded. -/
def specAggregate {α β : Type} (f : String → Except String (List α))
    (g : String → List α → List β) (nodes : List String) : List β :=
  (nodes.filter (fun n => exOk (f n))).flatMap
    (fun n => match f n with | .ok items => g n items | .error _ => [])

theorem gatherFan_eq {α β : Type} (f : String → Except String (List α))
    (g : String → List α → List β) :
    ∀ (nodes : List String) (acc : List β),
      gatherFan f g nodes acc = acc ++ specAggregate f g nodes := by
  intro nodes
  induction nodes with
  | nil => intro acc; simp [gatherFan, specAggregate]
  | cons n ns ih =>
    intro acc
    cases hf : f n with
    | ok items =>
      simp [gatherFan, hf, ih, specAggregate, List.filter_cons, exOk]
    | error e =>
      simp [gatherFan, hf, ih, specAggregate, List.filter_cons, exOk]

/-- Outcome of a ProxmoxMCP tool handler.  `formatted` is the normal path
through `self._format_response(data, kind)`; `errored` is the
`self._handle_error(context, e)` path.  Modelled from the spec:
`tools/base.py` is not in the repository snapshot; per the specification the
former produces the success output for the renderer and the latter the
failure envelope. -/
inductive ToolResult (α : Type) where
  | formatted (data : α) (kind : String)
  | errored (context : String) (e : String)

/-- Embedding of `ContainerTools.get_containers`
(`tools/container.py`, lines 59-84): fan-out over the cluster nodes, each
container tagged with its node name; a per-node failure is logged and
skipped. -/
def ContainerTools_get_containers (lxcOf : String → Except String (List JObj))
    (nodes : List String) : ToolResult (List JObj) :=
  .formatted
    (gatherFan lxcOf
      (fun n items => items.map (fun c => setKey c "node" (.str n))) nodes [])
    "container_list"

/-- A virtual machine record as consumed by `get_vms` in
`src/simple-proxmox-mcp/proxmox_api.py`: the code indexes `vmid`, `name`
and `status` directly (a record lacking them would raise `KeyError`), so
the model carries them as fields; `rest` holds the remaining keys of the
raw mapping. -/
structure SVM where
  vmid : JVal
  name : JVal
  status : String
  rest : JObj

/-- The per-node statistics `get_vms` derives for `nodes[node_name]`:
total count, running count, and the `{vmid, name, status}` projections of
the running VMs. -/
def nodeStat (nvms : List SVM) : Nat × Nat × List (JVal × JVal × String) :=
  let running := nvms.filter (fun vm => vm.status == "running")
  (nvms.length, running.length, running.map (fun vm => (vm.vmid, vm.name, vm.status)))

/-- The two accumulators of the `get_vms` loop: `vms` (flat list) and
`vms_by_node` (per-node sublists of the nodes that succeeded). -/
def gatherVmsLoop (qemuOf : String → Except String (List SVM)) :
    List String → List SVM × List (String × List SVM) →
      List SVM × List (String × List SVM)
  | [], st => st
  | n :: ns, (vms, byNode) =>
    match qemuOf n with
    | .ok items => gatherVmsLoop qemuOf ns (vms ++ items, byNode ++ [(n, items)])
    | .error _ => gatherVmsLoop qemuOf ns (vms, byNode)

/-- The success payload of `get_vms` (`src/simple-proxmox-mcp/proxmox_api.py`,
lines 47-85). -/
structure GetVmsData where
  total_vms : Nat
  total_running : Nat
  nodes : List (String × (Nat × Nat × List (JVal × JVal × String)))
  vms : List SVM

/-- Embedding of `get_vms` (`src/simple-proxmox-mcp/proxmox_api.py`, lines
47-85): fan-out with per-node skip, then the summary counts; `.ok` is the
normal return, `.error` the outer `except` path (never taken once the node
list is in hand). -/
def simple_get_vms (qemuOf : String → Except String (List SVM))
    (nodes : List String) : Except String GetVmsData :=
  let st := gatherVmsLoop qemuOf nodes ([], [])
  .ok { total_vms := st.1.length,
        total_running := (st.1.filter (fun vm => vm.status == "running")).length,
        nodes := st.2.map (fun p => (p.1, nodeStat p.2)),
        vms := st.1 }

theorem gatherVmsLoop_fst (qemuOf : String → Except String (List SVM)) :
    ∀ (nodes : List String) (vms : List SVM) (byNode : List (String × List SVM)),
      (gatherVmsLoop qemuOf nodes (vms, byNode)).1 =
        vms ++ specAggregate qemuOf (fun _ items => items) nodes := by
  intro nodes
  induction nodes with
  | nil => intro vms byNode; simp [gatherVmsLoop, specAggregate]
  | cons n ns ih =>
    intro vms byNode
    cases hf : qemuOf n with
    | ok items =>
      simp [gatherVmsLoop, hf, ih, specAggregate, List.filter_cons, exOk]
    | error e =>
      simp [gatherVmsLoop, hf, ih, specAggregate, List.filter_cons, exOk]

/-- The template filter of `TemplateTools.get_templates` and the simple
server: a VM record counts as a template when its `template` field equals
`1`. -/
def isTemplateVM (vm : JObj) : Bool :=
  match vm.lookup "template" with
  | some (JVal.int n) => n == 1
  | _ => false

/-- The disk bucket built by `TemplateTools.get_templates` (lines 81-85) and
`get_template_details` (lines 358-362): the insertion-order loop over the
config keys keeping the `scsi`/`ide`/`sata` families. -/
def disksLoop : JObj → JObj
  | [] => []
  | kv :: rest =>
    if strStarts kv.1 "scsi" || strStarts kv.1 "ide" || strStarts kv.1 "sata" then
      kv :: disksLoop rest
    else disksLoop rest

/-- Per-template enrichment inside `TemplateTools.get_templates` (lines
66-87): tag the node, and if the `vmid` is present and truthy fetch the
config for description/cores/memory/ostype and the disk bucket; a failing
config fetch is logged and leaves the template unenriched. -/
def enrichTemplate (configOf : String → JVal → Except String JObj)
    (n : String) (vm : JObj) : JObj :=
  let vm1 := setKey vm "node" (.str n)
  match vm.lookup "vmid" with
  | some v =>
    if truthy v then
      match configOf n v with
      | .ok cfg =>
        let vm2 := setKey vm1 "description" (jgetD cfg "description" (.str "No description"))
        let vm3 := setKey vm2 "cores" (jgetD cfg "cores" (.str "N/A"))
        let vm4 := setKey vm3 "memory" (jgetD cfg "memory" (.str "N/A"))
        let vm5 := setKey vm4 "os_type" (jgetD cfg "ostype" (.str "N/A"))
        setKey vm5 "disks" (.obj (disksLoop cfg))
      | .error _ => vm1
    else vm1
  | none => vm1

/-- Embedding of `TemplateTools.get_templates` (`tools/template.py`, lines
44-95): fan-out over the nodes, filtering each node's VM list for templates
and enriching them; a per-node failure is logged and skipped. -/
def TemplateTools_get_templates (qemuOf : String → Except String (List JObj))
    (configOf : String → JVal → Except String JObj)
    (nodes : List String) : ToolResult (List JObj) :=
  .formatted
    (gatherFan qemuOf
      (fun n vms => (vms.filter isTemplateVM).map (enrichTemplate configOf n))
      nodes [])
    "vm_templates"

/-- The `content == "backup"` test `BackupTools.list_backups` applies to
each storage entry (`tools/backup.py`, line 94). -/
def isBackupContent (b : JObj) : Bool :=
  match b.lookup "content" with
  | some (JVal.str s) => s == "backup"
  | _ => false

/-- The projection `BackupTools.list_backups` applies to each storage entry
whose `content` is `backup` (`tools/backup.py`, lines 93-102). -/
def backupEntry (n : String) (b : JObj) : JObj :=
  [("filename", jgetD b "volid" (.str "")),
   ("node", .str n),
   ("vmid", jgetD b "vmid" (.str "")),
   ("size", jgetD b "size" (.int 0)),
   ("timestamp", jgetD b "ctime" (.int 0)),
   ("format", jgetD b "format" (.str ""))]

/-- Embedding of `BackupTools.list_backups` (`tools/backup.py`, lines
61-109): fan-out over the nodes, keeping the `content == "backup"` entries;
a node whose storage query raises is skipped. -/
def BackupTools_list_backups (storageOf : String → Except String (List JObj))
    (nodes : List String) : ToolResult (List JObj) :=
  .formatted
    (gatherFan storageOf
      (fun n items => (items.filter isBackupContent).map (backupEntry n))
      nodes [])
    "backups"

/-! ## Claim C3: partial fan-out results -/

/-- C3.  For each cluster-scoped list operation (`get_containers`,
`get_vms`, `get_templates`, `list_backups`) run against a cluster in which
some per-node remote call raises, the result is still the success outcome,
and its list is exactly the concatenation, in cluster-list order, of the
contributions of the nodes whose calls succeeded; failing nodes are skipped
and no overall error is reported. -/
theorem cluster_fanout_partial_results :
    (∀ (lxcOf : String → Except String (List JObj)) (nodes : List String),
        (∃ n ∈ nodes, exOk (lxcOf n) = false) →
        ContainerTools_get_containers lxcOf nodes =
          .formatted (specAggregate lxcOf
            (fun n items => items.map (fun c => setKey c "node" (.str n))) nodes)
            "container_list")
  ∧ (∀ (qemuOf : String → Except String (List SVM)) (nodes : List String),
        (∃ n ∈ nodes, exOk (qemuOf n) = false) →
        ∃ d, simple_get_vms qemuOf nodes = .ok d ∧
          d.vms = specAggregate qemuOf (fun _ items => items) nodes)
  ∧ (∀ (qemuOf : String → Except String (List JObj))
        (configOf : String → JVal → Except String JObj) (nodes : List String),
        (∃ n ∈ nodes, exOk (qemuOf n) = false) →
        TemplateTools_get_templates qemuOf configOf nodes =
          .formatted (specAggregate qemuOf
            (fun n vms => (vms.filter isTemplateVM).map (enrichTemplate configOf n))
            nodes) "vm_templates")
  ∧ (∀ (storageOf : String → Except String (List JObj)) (nodes : List String),
        (∃ n ∈ nodes, exOk (storageOf n) = false) →
        BackupTools_list_backups storageOf nodes =
          .formatted (specAggregate storageOf
            (fun n items => (items.filter isBackupContent).map (backupEntry n))
            nodes) "backups") := by
  refine ⟨fun lxcOf nodes _ => ?_, fun qemuOf nodes _ => ?_,
    fun qemuOf configOf nodes _ => ?_, fun storageOf nodes _ => ?_⟩
  · simp [ContainerTools_get_containers, gatherFan_eq]
  · exact ⟨_, rfl, by simp [gatherVmsLoop_fst]⟩
  · simp [TemplateTools_get_templates, gatherFan_eq]
  · simp [BackupTools_list_backups, gatherFan_eq]

/-- Demonstration cluster of three nodes for the fan-out witness; the
second node always raises. -/
def fanNodes : List String := ["node1", "node2", "node3"]

/-- Container oracle for the witness: node2 raises. -/
def lxcDemo : String → Except String (List JObj) := fun n =>
  if n = "node1" then .ok [[("vmid", JVal.int 100)]]
  else if n = "node2" then .error "connection refused"
  else .ok [[("vmid", JVal.int 300)]]

/-- VM oracle for the witness: node2 raises. -/
def qemuDemo : String → Except String (List SVM) := fun n =>
  if n = "node1" then .ok [⟨JVal.int 100, JVal.str "vm1", "running", []⟩]
  else if n = "node2" then .error "connection refused"
  else .ok [⟨JVal.int 300, JVal.str "vm3", "stopped", []⟩]

/-- Template oracle for the witness: node2 raises; node1 also carries one
non-template VM that must be filtered out. -/
def tplDemo : String → Except String (List JObj) := fun n =>
  if n = "node1" then
    .ok [[("template", JVal.int 1), ("name", JVal.str "t1")],
         [("status", JVal.str "running")]]
  else if n = "node2" then .error "connection refused"
  else .ok [[("template", JVal.int 1)]]

/-- Config oracle for the witness: always raises, leaving templates
unenriched. -/
def cfgDemo : String → JVal → Except String JObj := fun _ _ => .error "cfg"

/-- Storage oracle for the witness: node2 raises; node1 also carries a
non-backup entry that must be filtered out. -/
def stoDemo : String → Except String (List JObj) := fun n =>
  if n = "node1" then
    .ok [[("content", JVal.str "backup"), ("volid", JVal.str "b1")],
         [("content", JVal.str "iso")]]
  else if n = "node2" then .error "connection refused"
  else .ok [[("content", JVal.str "backup"), ("volid", JVal.str "b3")]]

/-- C3 witness: the fan-out theorem applied to a three-node cluster whose
second node raises; every aggregated list contains exactly the node1 and
node3 contributions and every outcome is the success constructor. -/
theorem cluster_fanout_partial_results_witness :
    (ContainerTools_get_containers lxcDemo fanNodes =
      .formatted [[("vmid", JVal.int 100), ("node", JVal.str "node1")],
                  [("vmid", JVal.int 300), ("node", JVal.str "node3")]]
        "container_list")
  ∧ (∃ d, simple_get_vms qemuDemo fanNodes = .ok d ∧
        d.vms = [⟨JVal.int 100, JVal.str "vm1", "running", []⟩,
                 ⟨JVal.int 300, JVal.str "vm3", "stopped", []⟩])
  ∧ (TemplateTools_get_templates tplDemo cfgDemo fanNodes =
      .formatted [[("template", JVal.int 1), ("name", JVal.str "t1"),
                   ("node", JVal.str "node1")],
                  [("template", JVal.int 1), ("node", JVal.str "node3")]]
        "vm_templates")
  ∧ (BackupTools_list_backups stoDemo fanNodes =
      .formatted [[("filename", JVal.str "b1"), ("node", JVal.str "node1"),
                   ("vmid", JVal.str ""), ("size", JVal.int 0),
                   ("timestamp", JVal.int 0), ("format", JVal.str "")],
                  [("filename", JVal.str "b3"), ("node", JVal.str "node3"),
                   ("vmid", JVal.str ""), ("size", JVal.int 0),
                   ("timestamp", JVal.int 0), ("format", JVal.str "")]]
        "backups") := by
  refine ⟨?_, ?_, ?_, ?_⟩
  · have h := cluster_fanout_partial_results.1 lxcDemo fanNodes
      ⟨"node2", by decide, rfl⟩
    rw [h]; rfl
  · obtain ⟨d, hd, hv⟩ := cluster_fanout_partial_results.2.1 qemuDemo fanNodes
      ⟨"node2", by decide, rfl⟩
    exact ⟨d, hd, hv.trans rfl⟩
  · have h := cluster_fanout_partial_results.2.2.1 tplDemo cfgDemo fanNodes
      ⟨"node2", by decide, rfl⟩
    rw [h]; rfl
  · have h := cluster_fanout_partial_results.2.2.2 stoDemo fanNodes
      ⟨"node2", by decide, rfl⟩
    rw [h]; rfl

/-! ## Percentage derivation (claim C4)

Embedding of the used/total percentage pattern repeated throughout
`formatting/templates.py` (node, VM, container, storage and performance
templates, e.g. lines 29-33 and 139-142):
`percent = (used / total * 100) if total > 0 else 0`, rendered with the
f-string conversion `:.1f`.  Python float arithmetic is modelled by exact
rationals; under the `total > 0` guard the division is well defined, which
is the model-level counterpart of "never raises, never NaN/Infinity". -/

/-- The guarded percentage expression of `formatting/templates.py`. -/
def percentOf (used total : ℚ) : ℚ := if 0 < total then used / total * 100 else 0

/-- Rounding to one decimal place (`round(x, 1)`). -/
def round1 (x : ℚ) : ℚ := (round (x * 10) : ℤ) / 10

/-- The `:.1f` conversion: decimal rendering with exactly one digit after
the point. -/
def fmt1 (x : ℚ) : String :=
  let n : ℤ := round (x * 10)
  (if n < 0 then "-" else "") ++ toString (n.natAbs / 10) ++ "." ++ toString (n.natAbs % 10)

/-- The rendered percentage field of the list templates. -/
def percentStr (used total : ℚ) : String := fmt1 (percentOf used total)

theorem fmt1_round1 (x : ℚ) : fmt1 (round1 x) = fmt1 x := by
  have h : round ((round (x * 10) : ℤ) / (10 : ℚ) * 10) = round (x * 10) := by
    rw [div_mul_cancel₀ _ (by norm_num : (10 : ℚ) ≠ 0)]
    exact round_intCast _
  simp only [fmt1, round1, h]

/-- C4.  For every used/total pair rendered by the templates: when
`total > 0` the rendered percentage is the `:.1f` rendering of
`used/total*100` (equivalently, of its one-decimal rounding); when
`total ≤ 0` it is exactly `"0.0"`; and the rendering always carries exactly
one digit after the decimal point.  The embedding is a total function on
rationals: under the guard no division by zero (and hence no NaN/Infinity
and no exception) can arise. -/
theorem percent_projection (used total : ℚ) :
    (0 < total → percentOf used total = used / total * 100) ∧
    (total ≤ 0 → percentOf used total = 0 ∧ percentStr used total = "0.0") ∧
    percentStr used total = fmt1 (round1 (percentOf used total)) ∧
    (∃ w : String, ∃ d : Nat, d < 10 ∧
      percentStr used total = w ++ "." ++ toString d) := by
  refine ⟨fun h => ?_, fun h => ⟨?_, ?_⟩, ?_, ?_⟩
  · simp [percentOf, h]
  · simp [percentOf, not_lt.2 h]
  · have h0 : percentOf used total = 0 := by simp [percentOf, not_lt.2 h]
    have hr : (round ((0 : ℚ) * 10) : ℤ) = 0 := by norm_num [round_eq]
    rw [percentStr, h0, fmt1]
    rw [hr]
    decide
  · rw [percentStr, fmt1_round1]
  · refine ⟨(if (round (percentOf used total * 10) : ℤ) < 0 then "-" else "") ++
      toString ((round (percentOf used total * 10) : ℤ).natAbs / 10),
      (round (percentOf used total * 10) : ℤ).natAbs % 10, ?_, ?_⟩
    · omega
    · rfl

/-- C4 witness: the theorem at the specification's own example pair
(8 GiB used of 32 GiB total), whose rendered percentage is `"25.0"`. -/
theorem percent_projection_witness :
    ((0 : ℚ) < 34359738368) ∧
    percentOf 8589934592 34359738368 = 8589934592 / 34359738368 * 100 ∧
    percentStr 8589934592 34359738368 = "25.0" ∧
    ((34359738368 : ℚ) ≤ 0 → False) := by
  refine ⟨by norm_num, (percent_projection 8589934592 34359738368).1 (by norm_num),
    ?_, by norm_num⟩
  have hp : percentOf 8589934592 34359738368 = 25 := by
    rw [percentOf, if_pos (by norm_num : (0 : ℚ) < 34359738368)]
    norm_num
  have hr : (round ((25 : ℚ) * 10) : ℤ) = 250 := by norm_num [round_eq]
  rw [percentStr, hp, fmt1]
  rw [hr]
  decide

/-! ## Template precondition checks (claim C5)

Embedding of `TemplateTools.create_template`, `update_template` and
`delete_template` (`tools/template.py`, lines 97-142, 202-254 and 256-284).
The remote is given by oracles: the fetched status/config object (`ok` for
a normal fetch, `error` for a raising one) and the outcomes of the mutating
`config.put`/`delete` calls.  Alongside the handler outcome, each embedding
returns the list of mutating calls it issued, so the precondition branches
are provably mutation-free. -/

/-- The `vm_status.get('status') != 'stopped'` guard of `create_template`
(negated): `true` exactly when the fetched status object carries the string
`stopped`. -/
def statusIsStopped (st : JObj) : Bool :=
  match st.lookup "status" with
  | some (JVal.str s) => s == "stopped"
  | _ => false

/-- Optional string keyword handled with Python truthiness
(`if name: params["name"] = name`). -/
def optParamS (k : String) : Option String → JObj
  | some s => if s == "" then [] else [(k, JVal.str s)]
  | none => []

/-- Optional integer keyword handled with Python truthiness
(`if cores: params["cores"] = cores`). -/
def optParamI (k : String) : Option Int → JObj
  | some n => if n == 0 then [] else [(k, JVal.int n)]
  | none => []

/-- Truthiness of an optional string argument. -/
def optStr : Option String → Bool
  | some s => s != ""
  | none => false

/-- Embedding of `TemplateTools.create_template` (`tools/template.py`,
lines 97-142): requires the VM to be stopped before converting it;
otherwise an optional name/description `config.put` followed by the
`template=1` `config.put`.  The second component lists the `config.put`
parameter sets issued, in order. -/
def TemplateTools_create_template (vmid : String)
    (name description : Option String) (statusFetch : Except String JObj)
    (putr1 putr2 : Except String Unit) : ToolResult JObj × List JObj :=
  match statusFetch with
  | .error e => (.errored ("create template from VM " ++ vmid) e, [])
  | .ok st =>
    if statusIsStopped st then
      let upd := optParamS "name" name ++ optParamS "description" description
      if optStr name || optStr description then
        match putr1 with
        | .error e => (.errored ("create template from VM " ++ vmid) e, [upd])
        | .ok _ =>
          match putr2 with
          | .error e =>
            (.errored ("create template from VM " ++ vmid) e,
             [upd, [("template", JVal.int 1)]])
          | .ok _ =>
            (.formatted
              [("success", JVal.bool true),
               ("message", JVal.str ("VM " ++ vmid ++ " successfully converted to template"))]
              "template_operation",
             [upd, [("template", JVal.int 1)]])
      else
        match putr2 with
        | .error e =>
          (.errored ("create template from VM " ++ vmid) e, [[("template", JVal.int 1)]])
        | .ok _ =>
          (.formatted
            [("success", JVal.bool true),
             ("message", JVal.str ("VM " ++ vmid ++ " successfully converted to template"))]
            "template_operation",
           [[("template", JVal.int 1)]])
    else
      (.formatted
        [("success", JVal.bool false),
         ("message", JVal.str ("VM " ++ vmid ++
           " must be stopped before converting to template. Current status: " ++
           jreprOpt (st.lookup "status")))]
        "template_operation", [])

/-- Embedding of `TemplateTools.update_template` (`tools/template.py`,
lines 202-254): requires the target to carry `template=1`; collects the
truthy optional parameters and issues a single `config.put` when any are
present. -/
def TemplateTools_update_template (vmid : String)
    (name description : Option String) (cores memory : Option Int)
    (cfgFetch : Except String JObj) (putr : Except String Unit) :
    ToolResult JObj × List JObj :=
  match cfgFetch with
  | .error e => (.errored ("update template " ++ vmid) e, [])
  | .ok cfg =>
    if isTemplateVM cfg then
      let params := optParamS "name" name ++ optParamS "description" description ++
        optParamI "cores" cores ++ optParamI "memory" memory
      if params.isEmpty then
        (.formatted
          [("success", JVal.bool false),
           ("message", JVal.str "No update parameters provided")]
          "template_operation", [])
      else
        match putr with
        | .error e => (.errored ("update template " ++ vmid) e, [params])
        | .ok _ =>
          (.formatted
            [("success", JVal.bool true),
             ("message", JVal.str ("Template " ++ vmid ++ " successfully updated"))]
            "template_operation", [params])
    else
      (.formatted
        [("success", JVal.bool false),
         ("message", JVal.str ("VM " ++ vmid ++ " is not a template"))]
        "template_operation", [])

/-- Embedding of `TemplateTools.delete_template` (`tools/template.py`,
lines 256-284): requires the target to carry `template=1` before issuing
the delete.  The second component counts the delete calls issued. -/
def TemplateTools_delete_template (vmid : String)
    (cfgFetch : Except String JObj) (delRes : Except String JVal) :
    ToolResult JObj × Nat :=
  match cfgFetch with
  | .error e => (.errored ("delete template " ++ vmid) e, 0)
  | .ok cfg =>
    if isTemplateVM cfg then
      match delRes with
      | .error e => (.errored ("delete template " ++ vmid) e, 1)
      | .ok t =>
        (.formatted
          [("success", JVal.bool true), ("task_id", t),
           ("message", JVal.str ("Template " ++ vmid ++ " deletion initiated"))]
          "template_operation", 1)
    else
      (.formatted
        [("success", JVal.bool false),
         ("message", JVal.str ("VM " ++ vmid ++ " is not a template"))]
        "template_operation", 0)

/-- C5.  A `create_template` call on a VM whose fetched status is not
`stopped`, and an `update_template` or `delete_template` call on a VM whose
fetched config does not carry `template=1`, each return the normal
`success=false` envelope describing the violated precondition through the
`_format_response` path (not the exception path), and issue zero mutating
remote calls. -/
theorem template_preconditions :
    (∀ (vmid : String) (name description : Option String) (st : JObj)
        (putr1 putr2 : Except String Unit),
        statusIsStopped st = false →
        TemplateTools_create_template vmid name description (.ok st) putr1 putr2 =
          (.formatted
            [("success", JVal.bool false),
             ("message", JVal.str ("VM " ++ vmid ++
               " must be stopped before converting to template. Current status: " ++
               jreprOpt (st.lookup "status")))]
            "template_operation", []))
  ∧ (∀ (vmid : String) (name description : Option String)
        (cores memory : Option Int) (cfg : JObj) (putr : Except String Unit),
        isTemplateVM cfg = false →
        TemplateTools_update_template vmid name description cores memory
            (.ok cfg) putr =
          (.formatted
            [("success", JVal.bool false),
             ("message", JVal.str ("VM " ++ vmid ++ " is not a template"))]
            "template_operation", []))
  ∧ (∀ (vmid : String) (cfg : JObj) (delRes : Except String JVal),
        isTemplateVM cfg = false →
        TemplateTools_delete_template vmid (.ok cfg) delRes =
          (.formatted
            [("success", JVal.bool false),
             ("message", JVal.str ("VM " ++ vmid ++ " is not a template"))]
            "template_operation", 0)) := by
  refine ⟨fun vmid name description st putr1 putr2 h => ?_,
    fun vmid name description cores memory cfg putr h => ?_,
    fun vmid cfg delRes h => ?_⟩
  · simp [TemplateTools_create_template, h]
  · simp [TemplateTools_update_template, h]
  · simp [TemplateTools_delete_template, h]

/-- C5 witness: the theorem at a running VM (for `create_template`) and at
a config without the `template=1` marker (for `update_template` and
`delete_template`). -/
theorem template_preconditions_witness :
    (TemplateTools_create_template "101" none none
        (.ok [("status", JVal.str "running")]) (.ok ()) (.ok ()) =
      (.formatted
        [("success", JVal.bool false),
         ("message", JVal.str ("VM 101 must be stopped before converting to template. Current status: running"))]
        "template_operation", []))
  ∧ (TemplateTools_update_template "102" (some "t") none none none
        (.ok [("cores", JVal.int 2)]) (.ok ()) =
      (.formatted
        [("success", JVal.bool false),
         ("message", JVal.str "VM 102 is not a template")]
        "template_operation", []))
  ∧ (TemplateTools_delete_template "103" (.ok [("cores", JVal.int 2)])
        (.ok (JVal.str "UPID")) =
      (.formatted
        [("success", JVal.bool false),
         ("message", JVal.str "VM 103 is not a template")]
        "template_operation", 0)) := by
  refine ⟨?_, ?_, ?_⟩
  · have h := template_preconditions.1 "101" none none
      [("status", JVal.str "running")] (.ok ()) (.ok ()) rfl
    rw [h]; rfl
  · exact template_preconditions.2.1 "102" (some "t") none none none
      [("cores", JVal.int 2)] (.ok ()) rfl
  · exact template_preconditions.2.2 "103" [("cores", JVal.int 2)]
      (.ok (JVal.str "UPID")) rfl

/-! ## Config key bucketing (claim C6)

Embedding of the key-bucketing loops: the network-interface and
storage/mount-point line loops of `ProxmoxTemplates.container_config`
(`formatting/templates.py`, lines 262-282) and the disk/network dict loops
of `TemplateTools.get_template_details` (`tools/template.py`, lines
357-369; the disk loop also appears in `get_templates`, lines 81-85, as
`disksLoop` above). -/

/-- The network-interface lines of `container_config`: keys starting with
`net`, excluding the literal `netif`. -/
def containerConfigNetLines : JObj → List String
  | [] => []
  | kv :: rest =>
    if strStarts kv.1 "net" && kv.1 != "netif" then
      ("  • " ++ kv.1 ++ ": " ++ jrepr kv.2) :: containerConfigNetLines rest
    else containerConfigNetLines rest

/-- The storage/mount-point lines of `container_config`: keys starting with
`mp`, plus the exact key `rootfs`. -/
def containerConfigMountLines : JObj → List String
  | [] => []
  | kv :: rest =>
    if strStarts kv.1 "mp" || kv.1 == "rootfs" then
      ("  • " ++ kv.1 ++ ": " ++ jrepr kv.2) :: containerConfigMountLines rest
    else containerConfigMountLines rest

/-- The networks bucket of `get_template_details`: all keys starting with
`net` (the literal `netif` is NOT excluded here). -/
def networksLoop : JObj → JObj
  | [] => []
  | kv :: rest =>
    if strStarts kv.1 "net" then kv :: networksLoop rest
    else networksLoop rest

/-- C6 counterexample.  The claim requires the network bucket of every
projection to exclude the literal key `netif`, but the networks bucket of
`get_template_details` keeps it: on the config `{netif: "eth0"}` the bucket
contains `netif`, a key the claimed characterization excludes. -/
theorem netif_in_template_details_networks :
    networksLoop [("netif", JVal.str "eth0")] = [("netif", JVal.str "eth0")] ∧
    (networksLoop [("netif", JVal.str "eth0")]).map Prod.fst = ["netif"] ∧
    ¬ (strStarts "netif" "net" = true ∧ "netif" ≠ "netif") := by
  refine ⟨rfl, rfl, by simp⟩

/-- C6 (amended).  Keys are bucketed by prefix as claimed, except that the
`netif` exclusion applies only to the container-config renderer: in
`container_config` the network-interface lines are exactly the keys with
prefix `net` excluding the literal `netif`, and the storage/mount lines are
exactly the keys with prefix `mp` plus the exact key `rootfs`; in
`get_template_details` (and `get_templates`) the disks bucket is exactly
the keys with prefix `scsi`, `ide`, or `sata`, while the networks bucket is
exactly the keys with prefix `net` INCLUDING the literal `netif`.  No key
appears in a bucket whose filter it does not match. -/
theorem config_key_bucketing (config : JObj) :
    containerConfigNetLines config =
      (config.filter (fun kv => strStarts kv.1 "net" && kv.1 != "netif")).map
        (fun kv => "  • " ++ kv.1 ++ ": " ++ jrepr kv.2) ∧
    containerConfigMountLines config =
      (config.filter (fun kv => strStarts kv.1 "mp" || kv.1 == "rootfs")).map
        (fun kv => "  • " ++ kv.1 ++ ": " ++ jrepr kv.2) ∧
    disksLoop config =
      config.filter (fun kv =>
        strStarts kv.1 "scsi" || strStarts kv.1 "ide" || strStarts kv.1 "sata") ∧
    networksLoop config = config.filter (fun kv => strStarts kv.1 "net") := by
  refine ⟨?_, ?_, ?_, ?_⟩
  · induction config with
    | nil => rfl
    | cons kv rest ih =>
      by_cases h : (strStarts kv.1 "net" && kv.1 != "netif") = true
      · simp [containerConfigNetLines, h, List.filter_cons, ih]
      · simp [containerConfigNetLines, h, List.filter_cons, ih]
  · induction config with
    | nil => rfl
    | cons kv rest ih =>
      by_cases h : (strStarts kv.1 "mp" || kv.1 == "rootfs") = true
      · simp [containerConfigMountLines, h, List.filter_cons, ih]
      · simp [containerConfigMountLines, h, List.filter_cons, ih]
  · induction config with
    | nil => rfl
    | cons kv rest ih =>
      by_cases h : (strStarts kv.1 "scsi" || strStarts kv.1 "ide" || strStarts kv.1 "sata") = true
      · simp [disksLoop, h, List.filter_cons, ih]
      · simp [disksLoop, h, List.filter_cons, ih]
  · induction config with
    | nil => rfl
    | cons kv rest ih =>
      by_cases h : strStarts kv.1 "net" = true
      · simp [networksLoop, h, List.filter_cons, ih]
      · simp [networksLoop, h, List.filter_cons, ih]

/-! ## The task-wait helper (claim C7)

Embedding of `wait_for_task` (`src/simple-proxmox-mcp/proxmox_api.py`,
lines 287-302).  The remote is the oracle `poll`, giving the outcome of the
k-th status poll.  Real time is modelled by the loop clock `elapsed`: the
loop runs while `elapsed < timeout` and each non-decisive iteration
advances the clock by the fixed 2-second sleep interval (the default,
which is the only interval the script ever passes); the poll itself is
modelled as instantaneous.  Under that model the loop is a terminating
function by construction. -/

/-- The `status.get('exitstatus') == 'OK'` success flag. -/
def exitOK (st : JObj) : Bool :=
  match st.lookup "exitstatus" with
  | some (JVal.str s) => s == "OK"
  | _ => false

/-- The three return sites of `wait_for_task`: the stopped-task result
`{"success": exitstatus == "OK", "status": status}`, the poll-exception
envelope, and the timeout envelope. -/
inductive WaitResult where
  | done (success : Bool) (st : JObj)
  | errorEnv (msg : String)
  | timedOut (msg : String)

/-- The polling loop of `wait_for_task`: while the elapsed time is below
the timeout, poll; a raising poll returns the error envelope; a `stopped`
status returns the result; otherwise sleep 2 seconds and continue. -/
def waitLoop (poll : Nat → Except String JObj) (taskId : String)
    (timeout : Int) (k elapsed : Nat) : WaitResult :=
  if (elapsed : Int) < timeout then
    match poll k with
    | .error e => .errorEnv ("Error checking task status: " ++ e)
    | .ok st =>
      if statusIsStopped st then .done (exitOK st) st
      else waitLoop poll taskId timeout (k + 1) (elapsed + 2)
  else
    .timedOut ("Task " ++ taskId ++ " did not complete within " ++
      toString timeout ++ " seconds")
termination_by (timeout - elapsed).toNat
decreasing_by omega

/-- Embedding of `wait_for_task` (`proxmox_api.py`, lines 287-302). -/
def wait_for_task (poll : Nat → Except String JObj) (taskId : String)
    (timeout : Int) : WaitResult :=
  waitLoop poll taskId timeout 0 0

/-- A poll that neither raises nor reports a stopped task. -/
def nondecisive (poll : Nat → Except String JObj) (j : Nat) : Prop :=
  ∃ stj, poll j = .ok stj ∧ statusIsStopped stj = false

theorem waitLoop_spec (poll : Nat → Except String JObj) (taskId : String)
    (timeout : Int) :
    ∀ k elapsed,
      (∃ k2 st, k ≤ k2 ∧ poll k2 = .ok st ∧ statusIsStopped st = true ∧
        (∀ j, k ≤ j → j < k2 → nondecisive poll j) ∧
        waitLoop poll taskId timeout k elapsed = .done (exitOK st) st)
    ∨ (∃ k2 e, k ≤ k2 ∧ poll k2 = .error e ∧
        (∀ j, k ≤ j → j < k2 → nondecisive poll j) ∧
        waitLoop poll taskId timeout k elapsed =
          .errorEnv ("Error checking task status: " ++ e))
    ∨ waitLoop poll taskId timeout k elapsed =
        .timedOut ("Task " ++ taskId ++ " did not complete within " ++
          toString timeout ++ " seconds") := by
  intro k elapsed
  induction k, elapsed using waitLoop.induct poll taskId timeout with
  | case1 k elapsed hlt e hpoll =>
    refine Or.inr (Or.inl ⟨k, e, le_refl k, hpoll, fun j hj1 hj2 => absurd (lt_of_le_of_lt hj1 hj2) (lt_irrefl k), ?_⟩)
    rw [waitLoop, if_pos hlt, hpoll]
  | case2 k elapsed hlt st hpoll hstop =>
    refine Or.inl ⟨k, st, le_refl k, hpoll, hstop, fun j hj1 hj2 => absurd (lt_of_le_of_lt hj1 hj2) (lt_irrefl k), ?_⟩
    rw [waitLoop, if_pos hlt, hpoll]
    simp [hstop]
  | case3 k elapsed hlt st hpoll hstop ih =>
    simp only [Bool.not_eq_true] at hstop
    have hunfold : waitLoop poll taskId timeout k elapsed =
        waitLoop poll taskId timeout (k + 1) (elapsed + 2) := by
      rw [waitLoop, if_pos hlt, hpoll]
      simp [hstop]
    rcases ih with ⟨k2, st2, hk2, hpoll2, hstop2, hmid, heq⟩ |
      ⟨k2, e2, hk2, hpoll2, hmid, heq⟩ | heq
    · refine Or.inl ⟨k2, st2, le_trans (Nat.le_succ k) hk2, hpoll2, hstop2,
        fun j hj1 hj2 => ?_, hunfold.trans heq⟩
      rcases Nat.eq_or_lt_of_le hj1 with hej | hlj
      · exact hej ▸ ⟨st, hpoll, hstop⟩
      · exact hmid j hlj hj2
    · refine Or.inr (Or.inl ⟨k2, e2, le_trans (Nat.le_succ k) hk2, hpoll2,
        fun j hj1 hj2 => ?_, hunfold.trans heq⟩)
      rcases Nat.eq_or_lt_of_le hj1 with hej | hlj
      · exact hej ▸ ⟨st, hpoll, hstop⟩
      · exact hmid j hlj hj2
    · exact Or.inr (Or.inr (hunfold.trans heq))
  | case4 k elapsed hlt =>
    refine Or.inr (Or.inr ?_)
    rw [waitLoop, if_neg hlt]

/-- C7.  For every timeout `t > 0` and every sequence of remote
task-status responses, `wait_for_task` terminates (it is a total function
of the model) and returns one of exactly three outcomes: the stopped-task
result whose success flag is `exitstatus == "OK"`, taken at the first
decisive poll; the error envelope if a poll raises first; or the timeout
message naming the task and the timeout. -/
theorem wait_for_task_outcome (poll : Nat → Except String JObj)
    (taskId : String) (timeout : Int) (h : 0 < timeout) :
    (∃ k st, poll k = .ok st ∧ statusIsStopped st = true ∧
        (∀ j, j < k → nondecisive poll j) ∧
        wait_for_task poll taskId timeout = .done (exitOK st) st)
  ∨ (∃ k e, poll k = .error e ∧
        (∀ j, j < k → nondecisive poll j) ∧
        wait_for_task poll taskId timeout =
          .errorEnv ("Error checking task status: " ++ e))
  ∨ wait_for_task poll taskId timeout =
      .timedOut ("Task " ++ taskId ++ " did not complete within " ++
        toString timeout ++ " seconds") := by
  rcases waitLoop_spec poll taskId timeout 0 0 with
    ⟨k2, st, _, hpoll, hstop, hmid, heq⟩ | ⟨k2, e, _, hpoll, hmid, heq⟩ | heq
  · exact Or.inl ⟨k2, st, hpoll, hstop, fun j hj => hmid j (Nat.zero_le j) hj, heq⟩
  · exact Or.inr (Or.inl ⟨k2, e, hpoll, fun j hj => hmid j (Nat.zero_le j) hj, heq⟩)
  · exact Or.inr (Or.inr heq)

/-- Poll sequence for the C7 witness: running on the first poll, stopped
with `exitstatus == "OK"` from the second on. -/
def pollDemo : Nat → Except String JObj := fun k =>
  if k = 0 then .ok [("status", JVal.str "running")]
  else .ok [("status", JVal.str "stopped"), ("exitstatus", JVal.str "OK")]

/-- C7 witness: the outcome theorem at a 10-second timeout against
`pollDemo`, together with the concrete evaluation showing the stopped-task
result with a true success flag. -/
theorem wait_for_task_outcome_witness :
    ((0 : Int) < 10) ∧
    ((∃ k st, pollDemo k = .ok st ∧ statusIsStopped st = true ∧
        (∀ j, j < k → nondecisive pollDemo j) ∧
        wait_for_task pollDemo "UPID:pve1:123" 10 = .done (exitOK st) st)
      ∨ (∃ k e, pollDemo k = .error e ∧
          (∀ j, j < k → nondecisive pollDemo j) ∧
          wait_for_task pollDemo "UPID:pve1:123" 10 =
            .errorEnv ("Error checking task status: " ++ e))
      ∨ wait_for_task pollDemo "UPID:pve1:123" 10 =
          .timedOut ("Task UPID:pve1:123 did not complete within 10 seconds")) ∧
    wait_for_task pollDemo "UPID:pve1:123" 10 =
      .done true [("status", JVal.str "stopped"), ("exitstatus", JVal.str "OK")] := by
  refine ⟨by norm_num, ?_, ?_⟩
  · have h := wait_for_task_outcome pollDemo "UPID:pve1:123" 10 (by norm_num)
    simpa using h
  · simp [wait_for_task, waitLoop, pollDemo, statusIsStopped]
    rfl

/-! ## Renderer list templates (claim C8)

Embedding of `ProxmoxTemplates.container_list` (`formatting/templates.py`,
lines 155-186) and `ProxmoxTemplates.container_templates` (lines 321-349).
The theme icons (`ProxmoxTheme.RESOURCES[...]`, from the missing
`formatting/theme.py`) and the byte formatter
(`ProxmoxFormatters.format_bytes`, from the missing
`formatting/formatters.py`) are abstract parameters: every statement below
holds for all of them. -/

/-- A container record as consumed by `container_list`: the code indexes
`name`, `vmid`, `status` and `node` directly and divides the memory
numbers, so the model carries them as fields (`memUsed`/`memTotal` are the
`memory.get("used"/"total", 0)` values). -/
structure CRec where
  name : JVal
  vmid : JVal
  status : String
  node : JVal
  cpus : Option JVal
  memUsed : ℚ
  memTotal : ℚ

/-- The five lines `container_list` emits per container. -/
def containerBlock (icon : String) (fmtBytes : ℚ → String) (c : CRec) :
    List String :=
  [icon ++ " " ++ jrepr c.name ++ " (ID: " ++ jrepr c.vmid ++ ")",
   "  • Status: " ++ c.status.toUpper,
   "  • Node: " ++ jrepr c.node,
   "  • CPU Cores: " ++ (match c.cpus with | some v => jrepr v | none => "N/A"),
   "  • Memory: " ++ fmtBytes c.memUsed ++ " / " ++ fmtBytes c.memTotal ++
     " (" ++ fmt1 (percentOf c.memUsed c.memTotal) ++ "%)"]

/-- Embedding of `container_list`: the empty list renders the single
sentinel line; otherwise a header line plus one empty line and one block
per record, joined with newlines. -/
def container_list (icon : String) (fmtBytes : ℚ → String)
    (cs : List CRec) : String :=
  if cs.isEmpty then icon ++ " No containers found"
  else
    pyJoin "\n" ((icon ++ " Containers") ::
      cs.flatMap (fun c => "" :: containerBlock icon fmtBytes c))

/-- The template-name extraction of `container_templates`: the substring
after the last `/`, if one occurs, else the whole volume id. -/
def tmplName (volid : String) : String :=
  if volid.data.contains (Char.ofNat 47) then
    (volid.splitOn "/").getLastD volid
  else volid

/-- A container-template record as consumed by `container_templates`:
`volid` and `format` are `.get` results, `size` is the
`template.get('size', 0)` number handed to the byte formatter. -/
structure TRec where
  volid : Option String
  size : ℚ
  format : Option JVal

/-- The four lines `container_templates` emits per template. -/
def templateBlock (icon : String) (fmtBytes : ℚ → String) (t : TRec) :
    List String :=
  [icon ++ " " ++ tmplName (t.volid.getD "Unknown"),
   "  • Volume ID: " ++ t.volid.getD "Unknown",
   "  • Size: " ++ fmtBytes t.size,
   "  • Format: " ++ (match t.format with | some v => jrepr v | none => "N/A")]

/-- Embedding of `container_templates`: the empty list renders the single
sentinel line; otherwise a header line plus one empty line and one block
per record, joined with newlines. -/
def container_templates (icon : String) (fmtBytes : ℚ → String)
    (ts : List TRec) : String :=
  if ts.isEmpty then icon ++ " No container templates found"
  else
    pyJoin "\n" ((icon ++ " Container Templates") ::
      ts.flatMap (fun t => "" :: templateBlock icon fmtBytes t))

theorem pyJoin_append (sep : String) (xs ys : List String)
    (hx : xs ≠ []) (hy : ys ≠ []) :
    pyJoin sep (xs ++ ys) = pyJoin sep xs ++ sep ++ pyJoin sep ys := by
  induction xs with
  | nil => exact absurd rfl hx
  | cons a xs ih =>
    cases xs with
    | nil =>
      cases ys with
      | nil => exact absurd rfl hy
      | cons b ys => rfl
    | cons c xs2 =>
      have h2 : pyJoin sep ((a :: c :: xs2) ++ ys) =
          a ++ sep ++ pyJoin sep ((c :: xs2) ++ ys) := rfl
      have h3 : pyJoin sep (a :: c :: xs2) =
          a ++ sep ++ pyJoin sep (c :: xs2) := rfl
      rw [h2, ih (by simp), h3]
      simp [String.append_assoc]

theorem pyJoin_sentinel_step (head : String) (rest : List String)
    (hr : rest ≠ []) :
    pyJoin "\n" (head :: "" :: rest) = head ++ "\n\n" ++ pyJoin "\n" rest := by
  cases rest with
  | nil => exact absurd rfl hr
  | cons r rs =>
    show (head ++ "\n") ++ (("" ++ "\n") ++ pyJoin "\n" (r :: rs)) =
      (head ++ "\n\n") ++ pyJoin "\n" (r :: rs)
    rw [show ("" : String) ++ "\n" = "\n" from rfl, ← String.append_assoc,
      String.append_assoc head "\n" "\n",
      show ("\n" : String) ++ "\n" = "\n\n" from rfl]

theorem pyJoin_blocks (blocks : List (List String))
    (hb : ∀ b ∈ blocks, b ≠ []) :
    ∀ head, pyJoin "\n" (head :: blocks.flatMap (fun b => "" :: b)) =
      pyJoin "\n\n" (head :: blocks.map (pyJoin "\n")) := by
  induction blocks with
  | nil => intro head; rfl
  | cons b bs ih =>
    intro head
    have hbne : b ≠ [] := hb b (by simp)
    have hbs : ∀ x ∈ bs, x ≠ [] := fun x hx => hb x (by simp [hx])
    cases bs with
    | nil =>
      simp only [List.flatMap_cons, List.flatMap_nil, List.append_nil,
        List.map_cons, List.map_nil]
      rw [pyJoin_sentinel_step head b hbne]
      rfl
    | cons b2 bs2 =>
      have hflat : (b2 :: bs2).flatMap (fun b => "" :: b) ≠ [] := by
        simp [List.flatMap_cons]
      have hstep : head :: (b :: b2 :: bs2).flatMap (fun b => "" :: b) =
          head :: "" :: (b ++ (b2 :: bs2).flatMap (fun b => "" :: b)) := by
        simp [List.flatMap_cons]
      rw [hstep, pyJoin_sentinel_step head _ (by
        intro hemp
        exact hbne (List.append_eq_nil.mp hemp).1)]
      rw [pyJoin_append "\n" b _ hbne hflat]
      have hcons : pyJoin "\n" b ++ "\n" ++
          pyJoin "\n" ((b2 :: bs2).flatMap (fun b => "" :: b)) =
          pyJoin "\n" (pyJoin "\n" b :: (b2 :: bs2).flatMap (fun b => "" :: b)) := by
        cases hfl : (b2 :: bs2).flatMap (fun b => "" :: b) with
        | nil => exact absurd hfl hflat
        | cons z zs => rfl
      rw [hcons, ih hbs (pyJoin "\n" b)]
      rfl

theorem flatMap_sentinel {α : Type} (f : α → List String) (l : List α) :
    l.flatMap (fun c => "" :: f c) = (l.map f).flatMap (fun b => "" :: b) := by
  induction l with
  | nil => rfl
  | cons c rest ih => simp only [List.flatMap_cons, List.map_cons, ih]

/-- C8.  For the empty container list (and the empty container-template
list) the renderer returns exactly the single sentinel line for that kind;
for every non-empty list it instead joins the header and one block per
record with one separating empty line (equivalently: the blocks joined on
a double newline). -/
theorem empty_and_join_rendering :
    (∀ (icon : String) (fmtBytes : ℚ → String),
      container_list icon fmtBytes [] = icon ++ " No containers found") ∧
    (∀ (icon : String) (fmtBytes : ℚ → String),
      container_templates icon fmtBytes [] =
        icon ++ " No container templates found") ∧
    (∀ (icon : String) (fmtBytes : ℚ → String) (cs : List CRec), cs ≠ [] →
      container_list icon fmtBytes cs =
        pyJoin "\n\n" ((icon ++ " Containers") ::
          cs.map (fun c => pyJoin "\n" (containerBlock icon fmtBytes c)))) ∧
    (∀ (icon : String) (fmtBytes : ℚ → String) (ts : List TRec), ts ≠ [] →
      container_templates icon fmtBytes ts =
        pyJoin "\n\n" ((icon ++ " Container Templates") ::
          ts.map (fun t => pyJoin "\n" (templateBlock icon fmtBytes t)))) := by
  refine ⟨fun icon fmtBytes => rfl, fun icon fmtBytes => rfl,
    fun icon fmtBytes cs hcs => ?_, fun icon fmtBytes ts hts => ?_⟩
  · rw [container_list, if_neg (by simpa using hcs)]
    rw [flatMap_sentinel (containerBlock icon fmtBytes) cs, pyJoin_blocks (cs.map (containerBlock icon fmtBytes))
      (by intro b hb; simp only [List.mem_map] at hb; obtain ⟨c, _, rfl⟩ := hb
          simp [containerBlock])]
    simp only [List.map_map]
    rfl
  · rw [container_templates, if_neg (by simpa using hts)]
    rw [flatMap_sentinel (templateBlock icon fmtBytes) ts, pyJoin_blocks (ts.map (templateBlock icon fmtBytes))
      (by intro b hb; simp only [List.mem_map] at hb; obtain ⟨t, _, rfl⟩ := hb
          simp [templateBlock])]
    simp only [List.map_map]
    rfl

/-- C8 witness: the non-empty conjuncts of the rendering theorem applied to
one-element lists (icon `"CT"`, a constant byte formatter), with the empty
cases evaluated as well. -/
theorem empty_and_join_rendering_witness :
    container_list "CT" (fun _ => "1.0 MB") [] = "CT No containers found" ∧
    container_templates "CT" (fun _ => "1.0 MB") [] =
      "CT No container templates found" ∧
    ([(⟨JVal.str "web", JVal.int 200, "running", JVal.str "node1",
        some (JVal.int 2), 512, 1024⟩ : CRec)] ≠ []) ∧
    container_list "CT" (fun _ => "1.0 MB")
        [⟨JVal.str "web", JVal.int 200, "running", JVal.str "node1",
          some (JVal.int 2), 512, 1024⟩] =
      pyJoin "\n\n" ["CT Containers",
        pyJoin "\n" (containerBlock "CT" (fun _ => "1.0 MB")
          ⟨JVal.str "web", JVal.int 200, "running", JVal.str "node1",
            some (JVal.int 2), 512, 1024⟩)] ∧
    ([(⟨some "local:vztmpl/ubuntu.tar.gz", 1048576, some (JVal.str "tgz")⟩ : TRec)] ≠ []) ∧
    container_templates "CT" (fun _ => "1.0 MB")
        [⟨some "local:vztmpl/ubuntu.tar.gz", 1048576, some (JVal.str "tgz")⟩] =
      pyJoin "\n\n" ["CT Container Templates",
        pyJoin "\n" (templateBlock "CT" (fun _ => "1.0 MB")
          ⟨some "local:vztmpl/ubuntu.tar.gz", 1048576, some (JVal.str "tgz")⟩)] := by
  refine ⟨empty_and_join_rendering.1 "CT" _, empty_and_join_rendering.2.1 "CT" _,
    by simp, ?_, by simp, ?_⟩
  · have h := empty_and_join_rendering.2.2.1 "CT" (fun _ => "1.0 MB")
      [⟨JVal.str "web", JVal.int 200, "running", JVal.str "node1",
        some (JVal.int 2), 512, 1024⟩] (by simp)
    simpa using h
  · have h := empty_and_join_rendering.2.2.2 "CT" (fun _ => "1.0 MB")
      [⟨some "local:vztmpl/ubuntu.tar.gz", 1048576, some (JVal.str "tgz")⟩] (by simp)
    simpa using h

/-! ## Task pagination (claim C9)

Embedding of `TaskTools.get_tasks` (`tools/task.py`, lines 29-84): the
per-node task lists come from the oracle `fetch` (already reflecting the
`limit`/`vmid` request parameters the code forwards), and collection breaks
out of both loops as soon as `limit` entries have been accumulated. -/

/-- The projection `get_tasks` applies to each raw task. -/
def taskEntry (n : String) (t : JObj) : JObj :=
  [("upid", jgetD t "upid" (.str "")),
   ("type", jgetD t "type" (.str "")),
   ("status", jgetD t "status" (.str "")),
   ("node", .str n),
   ("starttime", jgetD t "starttime" (.int 0)),
   ("endtime", jgetD t "endtime" (.int 0)),
   ("id", jgetD t "id" (.str "")),
   ("user", jgetD t "user" (.str "")),
   ("vmid", jgetD t "vmid" (.str ""))]

/-- The inner loop of `get_tasks`: append each task of the node and break
once the accumulated list reaches `limit`. -/
def taskInner (limit : Nat) (n : String) : List JObj → List JObj → List JObj
  | [], acc => acc
  | t :: ts, acc =>
    let acc2 := acc ++ [taskEntry n t]
    if limit ≤ acc2.length then acc2 else taskInner limit n ts acc2

/-- The outer loop of `get_tasks`: per node run the inner loop and break
once the accumulated list reaches `limit`. -/
def taskOuter (limit : Nat) (fetch : String → List JObj) :
    List String → List JObj → List JObj
  | [], acc => acc
  | n :: ns, acc =>
    let acc2 := taskInner limit n (fetch n) acc
    if limit ≤ acc2.length then acc2 else taskOuter limit fetch ns acc2

/-- Embedding of `TaskTools.get_tasks`: the node filter replaces the
cluster node list (with Python truthiness on the filter string); `fetch`
returns the remote task list of a node for the given vmid filter and
limit. -/
def TaskTools_get_tasks (limit : Nat) (vmid nodeFilter : Option String)
    (allNodes : List String)
    (fetch : Option String → Nat → String → List JObj) :
    ToolResult (List JObj) :=
  let nodes := match nodeFilter with
    | some n => if n == "" then allNodes else [n]
    | none => allNodes
  .formatted (taskOuter limit (fetch vmid limit) nodes []) "tasks"

theorem taskInner_le (limit : Nat) (n : String) :
    ∀ (ts acc : List JObj), acc.length < limit →
      (taskInner limit n ts acc).length ≤ limit := by
  intro ts
  induction ts with
  | nil => intro acc h; exact Nat.le_of_lt h
  | cons t ts ih =>
    intro acc h
    rw [taskInner]
    by_cases h2 : limit ≤ (acc ++ [taskEntry n t]).length
    · simp only [if_pos h2]
      simp only [List.length_append, List.length_cons, List.length_nil]
      omega
    · simp only [if_neg h2]
      exact ih _ (by omega)

theorem taskOuter_le (limit : Nat) (fetch : String → List JObj) :
    ∀ (ns : List String) (acc : List JObj), acc.length < limit →
      (taskOuter limit fetch ns acc).length ≤ limit := by
  intro ns
  induction ns with
  | nil => intro acc h; exact Nat.le_of_lt h
  | cons n ns ih =>
    intro acc h
    rw [taskOuter]
    have hin := taskInner_le limit n (fetch n) acc h
    by_cases h2 : limit ≤ (taskInner limit n (fetch n) acc).length
    · simp only [if_pos h2]
      exact hin
    · simp only [if_neg h2]
      exact ih _ (by omega)

/-- C9.  For every `limit ≥ 1` and every combination of node/vmid filters
and remote task lists, `get_tasks` returns at most `limit` entries:
collection stops, within and across nodes, as soon as `limit` entries are
accumulated. -/
theorem get_tasks_respects_limit (limit : Nat) (vmid nodeFilter : Option String)
    (allNodes : List String)
    (fetch : Option String → Nat → String → List JObj)
    (h : 1 ≤ limit) :
    ∃ ts, TaskTools_get_tasks limit vmid nodeFilter allNodes fetch =
        .formatted ts "tasks" ∧ ts.length ≤ limit := by
  exact ⟨_, rfl, taskOuter_le limit (fetch vmid limit) _ [] (by simpa using h)⟩

/-- C9 witness: `limit = 1` against a node holding three tasks yields a
single entry. -/
theorem get_tasks_respects_limit_witness :
    (1 ≤ 1) ∧
    (∃ ts, TaskTools_get_tasks 1 none none ["node1"]
        (fun _ _ _ => [[("upid", JVal.str "a")], [("upid", JVal.str "b")],
                       [("upid", JVal.str "c")]]) =
        .formatted ts "tasks" ∧ ts.length ≤ 1) ∧
    TaskTools_get_tasks 1 none none ["node1"]
        (fun _ _ _ => [[("upid", JVal.str "a")], [("upid", JVal.str "b")],
                       [("upid", JVal.str "c")]]) =
      .formatted [taskEntry "node1" [("upid", JVal.str "a")]] "tasks" := by
  refine ⟨le_refl 1, get_tasks_respects_limit 1 none none ["node1"] _ (le_refl 1), rfl⟩

/-! ## Clone-template random fallback (claim C10)

Embedding of `clone_template` and `get_next_vmid`
(`src/simple-proxmox-mcp/proxmox_api.py`, lines 139-186).  The randomness
of `random.randint(100, 999)` is made explicit as the extra input `rand`:
the drawn ID is `100 + rand % 900`, covering exactly the range 100-999.
The second component of the result records the `clone.post` call issued
(node, template vmid, parameters). -/

/-- One `clone.post` invocation. -/
structure CloneCall where
  node : String
  vmid : String
  params : JObj

/-- The apostrophe character, used by the clone message. -/
def sQuote : String := String.singleton (Char.ofNat 39)

/-- Embedding of `get_next_vmid`: the cluster next-id query when it
returns, else the random fallback in the range 100-999. -/
def get_next_vmid (nextidRes : Except String Int) (rand : Nat) : Int :=
  match nextidRes with
  | .ok n => n
  | .error _ => 100 + (rand % 900 : Nat)

/-- Embedding of `clone_template` (`proxmox_api.py`, lines 139-176): draws
the new VM ID, issues the clone, extracts the task id, and reports
success; a raising clone post is caught into the error dictionary. -/
def simple_clone_template (node template_vmid new_vm_name : String)
    (target_node storage : Option String) (full_clone : Bool)
    (nextidRes : Except String Int) (rand : Nat)
    (postRes : Except String JVal) : JObj × List CloneCall :=
  let next_vmid := get_next_vmid nextidRes rand
  let params : JObj :=
    [("newid", JVal.int next_vmid), ("name", JVal.str new_vm_name),
     ("full", JVal.int (if full_clone then 1 else 0))] ++
    optParamS "target" target_node ++ optParamS "storage" storage
  match postRes with
  | .error e =>
    (errObj ("Failed to clone template " ++ template_vmid ++ " on node " ++
      node ++ ": " ++ e), [⟨node, template_vmid, params⟩])
  | .ok task_result =>
    let task_id := match task_result with
      | .obj kvs => match kvs.lookup "data" with
        | some d => d
        | none => task_result
      | _ => task_result
    ([("success", JVal.bool true), ("task_id", task_id),
      ("new_vmid", JVal.int next_vmid),
      ("message", JVal.str ("Started cloning template " ++ template_vmid ++
        " to create new VM " ++ sQuote ++ new_vm_name ++ sQuote ++
        " with ID " ++ toString next_vmid))],
     [⟨node, template_vmid, params⟩])

/-- C10.  When the cluster next-id query raises, `clone_template` reports
no error: it submits the clone with the randomly drawn ID `100 + rand % 900`
(always within 100-999) and returns a success dictionary; and two runs
with identical inputs and identical remote responses but different random
draws submit clones with different new VM IDs, so the operation is not a
deterministic function of its arguments and the remote responses. -/
theorem clone_template_random_fallback :
    (∀ (node tv name : String) (tn sto : Option String) (fc : Bool)
        (e : String) (rand : Nat) (t : JVal),
      ((simple_clone_template node tv name tn sto fc (.error e) rand (.ok t)).1.lookup
          "success" = some (JVal.bool true)) ∧
      ((simple_clone_template node tv name tn sto fc (.error e) rand (.ok t)).1.lookup
          "error" = none) ∧
      (∃ c, (simple_clone_template node tv name tn sto fc (.error e) rand (.ok t)).2
          = [c] ∧
        c.params.lookup "newid" = some (JVal.int (100 + (rand % 900 : Nat))) ∧
        (100 : Int) ≤ 100 + (rand % 900 : Nat) ∧
        (100 + ((rand % 900 : Nat) : Int)) ≤ 999))
  ∧ (∃ rand1 rand2 : Nat,
      ((simple_clone_template "pve1" "9000" "vm-new" none none true
          (.error "boom") rand1 (.ok (JVal.str "UPID"))).2.map
        (fun c => c.params.lookup "newid")) ≠
      ((simple_clone_template "pve1" "9000" "vm-new" none none true
          (.error "boom") rand2 (.ok (JVal.str "UPID"))).2.map
        (fun c => c.params.lookup "newid"))) := by
  constructor
  · intro node tv name tn sto fc e rand t
    refine ⟨rfl, rfl, ⟨⟨node, tv, _⟩, rfl, rfl, by omega, by
      have := Nat.mod_lt rand (show 0 < 900 by norm_num)
      omega⟩⟩
  · refine ⟨0, 1, ?_⟩
    intro h
    simp only [simple_clone_template, get_next_vmid, List.map_cons, List.map_nil] at h
    have h2 := List.head_eq_of_cons_eq h
    simp at h2
